import Mathlib

/-!
# Verification of `modules/store/src/reducer_creator.ts`

A shallow embedding of the two combinators exported by `reducer_creator.ts`:

* `on` (here `onFn`, since `on` is a reserved notation token): pairs a list of
  action creators with a state-transition function;
* `createReducer`: folds a list of such pairings into a dispatch function
  keyed by the action's `type` string.

Modelling choices, each tied to a line of the source:

* A TypeScript `Action` is a record with a string `type` field plus arbitrary
  payload fields; we model it as a structure with a `type : String` and an
  opaque payload of some type `P`.
* An `ActionCreator` is read by `on` only through its `.type` property
  (`(args as Creators).map((creator) => creator.type)`), so it is embedded as
  a structure holding just that string.
* The `Map<string, OnReducer>` built by `createReducer` is embedded as a
  function `String → Option (OnReducer S P)`; `map.get` is application and
  `map.set` is pointwise functional update, which is observationally the
  semantics of `Map.get`/`Map.set` for string keys.
* The returned closure `function (state: S = initialState, action: A)` uses a
  JavaScript default parameter: the default is substituted exactly when the
  passed argument is the value `undefined` (not for `null`, `0`, `""`, …).
  The state argument is therefore embedded as `Option S`, with `none`
  standing for the JavaScript value `undefined` and `some v` for any defined
  value `v`; the substitution is `state.getD initialState`.
-/

namespace NgrxReducerCreator

/-- A dispatched action: a tagged record with a string `type` identifier and
an arbitrary payload (the remaining fields of the TypeScript action). -/
structure Action (P : Type) where
  type : String
  payload : P
  deriving DecidableEq

/-- An action creator as consumed by `on`: the source reads only its `type`
property, so the embedding keeps just that field. -/
structure ActionCreator where
  type : String
  deriving DecidableEq

/-- `OnReducer<State, Creators>`: a state-transition function receiving the
current state and the action. -/
def OnReducer (S P : Type) : Type := S → Action P → S

/-- `ReducerTypes<State, Creators>`: the pairing returned by `on`, coupling
one transition function with the list of action type identifiers it runs
for. -/
structure ReducerTypes (S P : Type) where
  reducer : OnReducer S P
  types : List String

/-- The `on` function of the source (named `onFn` because `on` is reserved
notation in this Lean environment).  The source pops the trailing transition
function off the variadic argument list and maps `creator.type` over the
remaining action creators, returning `{ reducer, types }`; the embedding
receives the creators and the function as the two arguments the variadic
call splits into. -/
def onFn (creators : List ActionCreator) (reducer : OnReducer S P) :
    ReducerTypes S P :=
  { reducer := reducer, types := creators.map (fun creator => creator.type) }

/-- One `map.set` step of the inner loop of `createReducer`: register
`on.reducer` (here `r`) for the identifier `t`.  If an `existingReducer` is
already registered for `t`, the new entry runs it first and feeds its output
state, together with the same action, to `r`; otherwise `r` is registered
directly. -/
def insertType (r : OnReducer S P) (m : String → Option (OnReducer S P))
    (t : String) : String → Option (OnReducer S P) :=
  fun k =>
    if k = t then
      some (match m t with
        | some existingReducer =>
            fun state action => r (existingReducer state action) action
        | none => r)
    else m k

/-- The dispatch-table construction of `createReducer`: the nested
`for (const on of ons) { for (const type of on.types) ... }` loops, starting
from the empty map. -/
def buildMap (ons : List (ReducerTypes S P)) :
    String → Option (OnReducer S P) :=
  ons.foldl
    (fun m o => o.types.foldl (fun acc t => insertType o.reducer acc t) m)
    (fun _ => none)

/-- `createReducer(initialState, ...ons)`: builds the dispatch table once,
then returns the dispatch closure.  The state argument is `Option S`
(`none` = the JavaScript value `undefined`); the default parameter
substitutes `initialState` for `undefined`, then the action's `type` is
looked up in the table: a hit applies the registered (composed) transition
function to the state and action, a miss returns the state unchanged. -/
def createReducer (initialState : S) (ons : List (ReducerTypes S P)) :
    Option S → Action P → S :=
  let map := buildMap ons
  fun state action =>
    let s := state.getD initialState
    match map action.type with
    | some reducer => reducer s action
    | none => s

/-- A closed universe of defined JavaScript primitive values, used to state
claims that distinguish `undefined` from other falsy values (`null`, `0`,
`""`, `false`).  `undefined` itself is represented by `none` at the
`Option JSVal` level, mirroring the default-parameter check. -/
inductive JSVal where
  | jsNull
  | jsNum (n : Int)
  | jsStr (s : String)
  | jsBool (b : Bool)
  deriving DecidableEq

/-- Running a sequence of dispatch invocations (used to state that
interleaved calls cannot affect one another's results). -/
def runDispatchSeq (d : Option S → Action P → S)
    (qs : List (Option S × Action P)) : List S :=
  qs.map (fun q => d q.1 q.2)

end NgrxReducerCreator

namespace NgrxReducerCreator

/-! ## Helper lemmas about the dispatch table -/

/-- Registering reducers for a list of identifiers leaves every other key of
the table untouched. -/
theorem foldl_insertType_not_mem (r : OnReducer S P) (ts : List String)
    (m : String → Option (OnReducer S P)) (k : String) (h : k ∉ ts) :
    ts.foldl (fun acc t => insertType r acc t) m k = m k := by
  induction ts generalizing m with
  | nil => rfl
  | cons t ts ih =>
    simp only [List.mem_cons, not_or] at h
    rw [List.foldl_cons, ih _ h.2]
    simp [insertType, h.1]

/-- Folding the table-building step over a list of pairings leaves every key
that appears in none of their identifier lists untouched. -/
theorem foldl_buildStep_not_mem (ons : List (ReducerTypes S P))
    (m : String → Option (OnReducer S P)) (k : String)
    (h : ∀ o ∈ ons, k ∉ o.types) :
    (ons.foldl
      (fun m o => o.types.foldl (fun acc t => insertType o.reducer acc t) m)
      m) k = m k := by
  induction ons generalizing m with
  | nil => rfl
  | cons o os ih =>
    rw [List.foldl_cons, ih]
    · exact foldl_insertType_not_mem _ _ _ _ (h o (by simp))
    · intro o' ho'
      exact h o' (by simp [ho'])

/-- An identifier registered in no pairing is absent from the finished
dispatch table. -/
theorem buildMap_not_mem (ons : List (ReducerTypes S P)) (k : String)
    (h : ∀ o ∈ ons, k ∉ o.types) : buildMap ons k = none :=
  foldl_buildStep_not_mem ons _ k h

/-- A pairing with an empty identifier list contributes nothing to the
dispatch table, wherever it appears in the argument list. -/
theorem buildMap_empty_types (f : OnReducer S P)
    (ons1 ons2 : List (ReducerTypes S P)) :
    buildMap (ons1 ++ onFn [] f :: ons2) = buildMap (ons1 ++ ons2) := by
  unfold buildMap
  rw [List.foldl_append, List.foldl_cons, List.foldl_append]
  rfl

/-! ## Claim theorems -/

/-- Claim C1: for a dispatch function built by `createReducer` from two
pairings both listing the same identifier `t`, with transition functions `f`
then `g` in declaration order, dispatching any state `s` with any action of
type `t` (arbitrary payload `p`) returns `g (f s a) a`: handlers sharing a
tag are composed left to right, each receiving the previous handler's output
state and the same action. -/
theorem shared_type_handlers_compose_left_to_right
    (S0 : S) (f g : OnReducer S P) (t : String) (s : S) (p : P) :
    createReducer S0 [onFn [⟨t⟩] f, onFn [⟨t⟩] g] (some s) ⟨t, p⟩ =
      g (f s ⟨t, p⟩) ⟨t, p⟩ := by
  simp [createReducer, buildMap, insertType, onFn]

/-- Claim C2: for every dispatch function built by `createReducer` and every
defined state `s` and action `a` whose type identifier appears in no
pairing, dispatch returns the input state unchanged.  The dispatch function
is total (a Lean function), so it never raises an error. -/
theorem unknown_type_returns_state_unchanged
    (S0 : S) (ons : List (ReducerTypes S P)) (s : S) (a : Action P)
    (h : ∀ o ∈ ons, a.type ∉ o.types) :
    createReducer S0 ons (some s) a = s := by
  simp [createReducer, buildMap_not_mem ons a.type h]

/-- Witness for C2 at a concrete input: one pairing for type `"A"`, action of
type `"B"`, state `5` returned unchanged. -/
theorem unknown_type_returns_state_unchanged_witness :
    createReducer (0 : Int) [onFn [⟨"A"⟩] (fun s _ => s + 1)]
      (some 5) ⟨"B", ()⟩ = 5 :=
  unknown_type_returns_state_unchanged 0 [onFn [⟨"A"⟩] (fun s _ => s + 1)]
    5 ⟨"B", ()⟩ (by decide)

/-- Claim C3: when the state argument is the JavaScript value `undefined`
(embedded as `none`), the initial state `S0` is substituted before the table
lookup: with no pairings dispatch returns `S0`; with one pairing for `t` and
an action of a different type `u` it still returns `S0`; and with a matching
action type the transition function is applied to `(S0, a)` and its result
returned. -/
theorem undefined_state_substitutes_initial_state
    (S0 : S) (f : OnReducer S P) (t u : String) (p : P) (h : u ≠ t) :
    createReducer S0 [] none (⟨t, p⟩ : Action P) = S0 ∧
    createReducer S0 [onFn [⟨t⟩] f] none ⟨u, p⟩ = S0 ∧
    createReducer S0 [onFn [⟨t⟩] f] none ⟨t, p⟩ = f S0 ⟨t, p⟩ := by
  refine ⟨rfl, ?_, ?_⟩ <;> simp [createReducer, buildMap, insertType, onFn, h]

/-- Witness for C3 at a concrete input: initial state `0`, increment handler
for `"A"`, probe action types `"A"` and `"B"`. -/
theorem undefined_state_substitutes_initial_state_witness :
    createReducer (0 : Int) [] none (⟨"A", ()⟩ : Action Unit) = 0 ∧
    createReducer (0 : Int) [onFn [⟨"A"⟩] (fun s _ => s + 1)] none ⟨"B", ()⟩ = 0 ∧
    createReducer (0 : Int) [onFn [⟨"A"⟩] (fun s _ => s + 1)] none ⟨"A", ()⟩ = 1 :=
  undefined_state_substitutes_initial_state 0 (fun s _ => s + 1) "A" "B" ()
    (by decide)

/-- Claim C4: `on` (here `onFn`) called with descriptors carrying identifiers
`[c1.type, c2.type]` in that order followed by a transition function `f`
returns a pairing whose identifier list is exactly that list in the same
order and whose reducer field is exactly `f`.  The function is pure, so the
call has no side effects. -/
theorem onFn_returns_types_in_order_and_exact_reducer
    (c1 c2 : ActionCreator) (f : OnReducer S P) :
    (onFn [c1, c2] f).types = [c1.type, c2.type] ∧
    (onFn [c1, c2] f).reducer = f :=
  ⟨rfl, rfl⟩

/-- Claim C5, counterexample: with initial state `0 : Int` and no pairings,
the claim "dispatch(S1, a) === S1 for any S1 whatsoever, including
S1 = undefined" is false: at `S1 = undefined` (i.e. `none`) the dispatch
function returns the initial state `0`, a defined value, which is not
`undefined`. -/
theorem identity_fails_at_undefined_state :
    ¬ (∀ s1 : Option Int,
        some (createReducer (0 : Int) [] s1 ⟨"A", ()⟩) = s1) := by
  intro h
  have := h none
  simp [createReducer, buildMap] at this

/-- Claim C5, amended: for a dispatch function built with initial state `S0`
and no pairings, dispatch returns any *defined* state `S1` unchanged, while
at `S1 = undefined` it returns `S0` instead. -/
theorem no_pairings_identity_on_defined_states
    (S0 : S) (s : S) (a : Action P) :
    createReducer S0 [] (some s) a = s ∧ createReducer S0 [] none a = S0 :=
  ⟨rfl, rfl⟩

/-- Claim C6: the dispatch function is deterministic and pure: two
invocations on the same `(state, action)` pair give the same result, and a
dispatch occurring in any sequence of interleaved dispatch invocations
(before it: `qs1`, after it: `qs2`) produces exactly the result of the same
invocation in isolation — the table is fixed at construction and the
embedding is a pure function of its two arguments. -/
theorem dispatch_deterministic_and_interleaving_independent
    (S0 : S) (ons : List (ReducerTypes S P)) (s : Option S) (a : Action P)
    (qs1 qs2 : List (Option S × Action P)) :
    createReducer S0 ons s a = createReducer S0 ons s a ∧
    (runDispatchSeq (createReducer S0 ons) (qs1 ++ (s, a) :: qs2))[qs1.length]? =
      some (createReducer S0 ons s a) := by
  refine ⟨rfl, ?_⟩
  simp only [runDispatchSeq, List.map_append, List.map_cons]
  rw [List.getElem?_append_right (by simp)]
  simp

/-- Claim C7: with one pairing mapping identifier `"INC"` to
`(s, _) => s + 1`, dispatching state `5` with an action of type `"INC"`
returns `6`, and with an action of type `"OTHER"` returns `5`. -/
theorem inc_example_dispatch :
    createReducer (0 : Int) [onFn [⟨"INC"⟩] (fun s _ => s + 1)]
      (some 5) ⟨"INC", ()⟩ = 6 ∧
    createReducer (0 : Int) [onFn [⟨"INC"⟩] (fun s _ => s + 1)]
      (some 5) ⟨"OTHER", ()⟩ = 5 := by
  decide

/-- Claim C8: calling `on` with zero descriptors yields a pairing with an
empty identifier list, and passing such a pairing to `createReducer` (at any
position in the pairing list) yields a dispatch function that behaves, for
every state and action, exactly as if the pairing had been omitted: its
transition function is unreachable. -/
theorem empty_descriptor_pairing_is_unreachable
    (S0 : S) (f : OnReducer S P) (ons1 ons2 : List (ReducerTypes S P))
    (s : Option S) (a : Action P) :
    (onFn ([] : List ActionCreator) f).types = [] ∧
    createReducer S0 (ons1 ++ onFn [] f :: ons2) s a =
      createReducer S0 (ons1 ++ ons2) s a := by
  refine ⟨rfl, ?_⟩
  simp only [createReducer]
  rw [buildMap_empty_types]

/-- Claim C9: if a single `on` call lists the same identifier `t` twice, the
resulting pairing's identifier list contains `t` twice and `createReducer`
composes the pairing's transition function with itself: dispatching a
matching action applies the handler once per occurrence, i.e. twice. -/
theorem duplicate_type_in_one_pairing_applies_handler_twice
    (S0 : S) (f : OnReducer S P) (t : String) (s : S) (p : P) :
    createReducer S0 [onFn [⟨t⟩, ⟨t⟩] f] (some s) ⟨t, p⟩ =
      f (f s ⟨t, p⟩) ⟨t, p⟩ := by
  simp [createReducer, buildMap, insertType, onFn]

/-- Claim C10: the initial-state substitution triggers only when the state
argument is exactly the JavaScript value `undefined` (`none`).  Every other
falsy value — `null`, `0`, `""`, `false`, embedded as defined `JSVal`
states — is passed as-is to a matching transition function and returned
unchanged when no handler matches, while the genuine `undefined` argument is
replaced by the initial state. -/
theorem only_exact_undefined_triggers_substitution
    (S0 : JSVal) (f : OnReducer JSVal Unit) (v : JSVal)
    (hv : v = JSVal.jsNull ∨ v = JSVal.jsNum 0 ∨ v = JSVal.jsStr "" ∨
      v = JSVal.jsBool false) :
    createReducer S0 [onFn [⟨"T"⟩] f] (some v) ⟨"T", ()⟩ = f v ⟨"T", ()⟩ ∧
    createReducer S0 [onFn [⟨"T"⟩] f] (some v) ⟨"U", ()⟩ = v ∧
    createReducer S0 [onFn [⟨"T"⟩] f] none ⟨"U", ()⟩ = S0 := by
  refine ⟨?_, ?_, ?_⟩ <;> simp [createReducer, buildMap, insertType, onFn]

/-- Witness for C10 at a concrete input: state `null`, constant handler; the
handler receives `null` (not the initial state `7`), a non-matching action
returns `null`, and the `undefined` argument yields `7`. -/
theorem only_exact_undefined_triggers_substitution_witness :
    createReducer (JSVal.jsNum 7) [onFn [⟨"T"⟩] (fun _ _ => JSVal.jsNum 1)]
      (some JSVal.jsNull) ⟨"T", ()⟩ = JSVal.jsNum 1 ∧
    createReducer (JSVal.jsNum 7) [onFn [⟨"T"⟩] (fun _ _ => JSVal.jsNum 1)]
      (some JSVal.jsNull) ⟨"U", ()⟩ = JSVal.jsNull ∧
    createReducer (JSVal.jsNum 7) [onFn [⟨"T"⟩] (fun _ _ => JSVal.jsNum 1)]
      none ⟨"U", ()⟩ = JSVal.jsNum 7 :=
  only_exact_undefined_triggers_substitution (JSVal.jsNum 7)
    (fun _ _ => JSVal.jsNum 1) JSVal.jsNull (Or.inl rfl)

end NgrxReducerCreator
